import Mathlib

/-!
Shallow embedding of the crawl engine in `gpt_crawler_core.py`
(class `GPTCrawler`): URL pattern matching, content extraction,
per-page crawling and the main bounded-traversal loop, together with
proofs of the specification's claims about them.

Python strings are modelled as Lean `String` (sequences of `Char`);
Python's `set` objects are modelled as duplicate-free lists whose pop
order is supplied by an external oracle `pick : Nat → Nat`, so that
every possible pop order of the set is some instantiation of `pick`.
The browser/network is an opaque `World` function: `none` models a
navigation failure / timeout (an exception raised inside the per-page
`try`), `some` models a successful fetch.
-/

namespace GPTCrawlerModel

/-- Helper for `pyWords`: scans the characters left to right, keeping the
current partial word in `acc` (reversed). -/
def wordsAux : List Char → List Char → List (List Char)
  | [], acc => if acc = [] then [] else [acc.reverse]
  | c :: cs, acc =>
    if c.isWhitespace then
      if acc = [] then wordsAux cs [] else acc.reverse :: wordsAux cs []
    else wordsAux cs (c :: acc)

/-- Python `str.split()` with no separator: split on runs of whitespace,
dropping empty pieces. Used by the `' '.join(content.split())` cleanup
in `process_page` (gpt_crawler_core.py line 49). -/
def pyWords (s : List Char) : List (List Char) := wordsAux s []

/-- Python `' '.join(ws)`: interleave a single space between the pieces. -/
def joinWords : List (List Char) → List Char
  | [] => []
  | [w] => w
  | w :: x :: ws => w ++ ' ' :: joinWords (x :: ws)

/-- The whitespace cleanup `' '.join(content.split())` from
`process_page` (gpt_crawler_core.py line 49): collapse every run of
whitespace to a single space and trim the ends. -/
def normalizeWsStr (s : String) : String :=
  ⟨joinWords (pyWords s.data)⟩

/-- Python `str.strip()`: drop whitespace from both ends. -/
def pyStrip (s : String) : String :=
  ⟨((s.data.dropWhile Char.isWhitespace).reverse.dropWhile Char.isWhitespace).reverse⟩

/-- `GPTCrawler.matches_pattern` (gpt_crawler_core.py lines 29-32):
empty pattern matches everything, otherwise Python's
`url.startswith(pattern)`, i.e. a literal prefix test. -/
def matches_pattern (url pattern : String) : Bool :=
  if pattern = "" then true
  else pattern.data.isPrefixOf url.data

/-- The state of one rendered page as seen by `process_page`:
`body` is `document.body.textContent`, `select sel` is the list of
`textContent` strings of the elements matched by `query_selector_all sel`,
and `err` is `some e` when using the page handle raises an exception
with message `e` (e.g. use-after-close), `none` when all page
operations succeed. -/
structure Page where
  body : String
  select : String → List String
  err : Option String

/-- `GPTCrawler.process_page` (gpt_crawler_core.py lines 34-54):
with a non-empty selector, take the stripped text of every matched
element whose raw text is non-empty and join with a blank line;
with an empty selector take the whole body text; then collapse
whitespace. Any exception is caught and turned into a diagnostic
string, so the function is total. -/
def process_page (page : Page) (selector : String) ( remove_selectors : List String) : String :=
  match page.err with
  | some e => "Error processing page: " ++ e
  | none =>
    let content :=
      if selector ≠ "" then
        String.intercalate "\n\n"
          (((page.select selector).filter (fun t => t ≠ "")).map pyStrip)
      else page.body
    normalizeWsStr content

/-- `urlparse(url).netloc` restricted to the URL shapes the crawler
sees: the authority component, i.e. what stands between `scheme://`
and the next `/`, `?` or `#` (empty when the URL has no `//` part). -/
def netloc (u : String) : String :=
  let cs := u.data
  let rest := if cs.contains ':' then (cs.dropWhile (fun c => c != ':')).drop 1 else cs
  if rest.take 2 = ['/', '/'] then
    ⟨(rest.drop 2).takeWhile (fun c => !(c == '/' || c == '?' || c == '#'))⟩
  else ""

/-- Modelled from the spec: the host component of an authority string,
the part after the userinfo `@` and before the port `:` (§4.4 compares
hosts case-sensitively, so no case folding is applied). -/
def hostFromNetloc (n : String) : String :=
  ⟨((n.data.reverse.takeWhile (fun c => c != '@')).reverse).takeWhile (fun c => c != ':')⟩

/-- The host component of a URL, read off its authority. -/
def hostOf (u : String) : String := hostFromNetloc (netloc u)

/-- Modelled from the spec: the URL normalization the spec's Frontier
contract speaks about — scheme+host+path+query kept, fragment
stripped. -/
def normalizeUrl (u : String) : String :=
  ⟨u.data.takeWhile (fun c => c != '#')⟩

/-- One entry of `self.results` (gpt_crawler_core.py lines 71-75). -/
structure PageRecord where
  url : String
  title : String
  content : String
deriving DecidableEq, Repr

/-- What the browser yields for one URL whose `page.goto`/`page.title`
calls succeed: the page title, the page state used for extraction, the
raw `href` values of the `a[href]` anchors on the page, and `linksErr`,
true when the link-extraction script (gpt_crawler_core.py line 78) or
`page.close()` (line 91) raises *after* the record was already
appended at line 71. -/
structure FetchResult where
  title : String
  page : Page
  links : List String
  linksErr : Bool

/-- The network/browser abstraction: `none` means `page.goto url` or
`page.title()` raises (navigation failure, timeout, or any per-page
browser error occurring before the append at line 71); `some` a fetch
that reaches the append. -/
def World : Type := String → Option FetchResult

/-- `GPTCrawler.crawl_page` (gpt_crawler_core.py lines 56-96): on a
failure before the append (goto/title) the exception is caught,
nothing is recorded and `[]` is returned; otherwise one record is
appended, and then either the link extraction or close raises
(`linksErr`, exception caught at line 94: the record stays, `[]`
returned) or the page's links, pre-filtered to `http` schemes by the
in-page script, are filtered to the netloc of the current URL.
Returns the records to append and the discovered links. -/
def crawl_page (world : World) (url selector : String)
    ( remove_selectors : List String) : List PageRecord × List String :=
  match world url with
  | none => ([], [])
  | some f =>
    let content := process_page f.page selector remove_selectors
    let rec1 : PageRecord := ⟨url, f.title, content⟩
    if f.linksErr then ([rec1], [])
    else
      let links := f.links.filter (fun h => "http".data.isPrefixOf h.data)
      let base_domain := netloc url
      ([rec1], links.filter (fun l => netloc l == base_domain))

/-- The mutable state of the crawl loop: `visited` models
`self.visited_urls` (a duplicate-free list standing for the Python
set, in insertion order), `results` models `self.results`, `frontier`
models the local set `urls_to_visit`. `crawlCalls` (the URLs passed to
`crawl_page`, in order) and `enqueued` (every URL ever placed in the
frontier) are ghost fields recorded for the specification. -/
structure CrawlState where
  visited : List String
  results : List PageRecord
  frontier : List String
  crawlCalls : List String
  enqueued : List String
deriving DecidableEq, Repr

/-- One iteration of the `while` body (gpt_crawler_core.py lines
134-146), popping the frontier element at index `i`: skip if already
visited, skip if the pattern rejects it, otherwise mark visited, crawl
and add the unvisited new links that are not already queued. -/
def stepState (world : World) (url_pattern selector : String)
    ( remove_selectors : List String) (i : Nat) (st : CrawlState) : CrawlState :=
  let url := st.frontier.getD i ""
  let fr := st.frontier.eraseIdx i
  if url ∈ st.visited then { st with frontier := fr }
  else if matches_pattern url url_pattern = true then
    let visited := st.visited ++ [url]
    let res := crawl_page world url selector remove_selectors
    let adds := res.2.dedup.filter (fun u => ¬ u ∈ visited ∧ ¬ u ∈ fr)
    { visited := visited, results := st.results ++ res.1, frontier := fr ++ adds,
      crawlCalls := st.crawlCalls ++ [url], enqueued := st.enqueued ++ adds }
  else { st with frontier := fr }

/-- The `while` loop of `GPTCrawler.crawl` (gpt_crawler_core.py line
133): run while the frontier is non-empty and fewer than `max_pages`
URLs have been visited. `pick` is the oracle choosing which set
element `urls_to_visit.pop()` removes (Python set pop order is
unspecified, so it is quantified over); `fuel` bounds the number of
iterations, and every claim below holds for every fuel, or for enough
fuel to drain the loop. The `self.running` conjunct of the guard is
constant in a run with no `stop()` call and is omitted. -/
def crawlLoop (world : World) (url_pattern selector : String)
    ( remove_selectors : List String) (max_pages : Nat) (pick : Nat → Nat) :
    Nat → CrawlState → CrawlState
  | 0, st => st
  | fuel + 1, st =>
    if st.frontier = [] ∨ max_pages ≤ st.visited.length then st
    else crawlLoop world url_pattern selector remove_selectors max_pages pick fuel
      (stepState world url_pattern selector remove_selectors
        (pick fuel % st.frontier.length) st)

/-- The metadata block of the written artifact (gpt_crawler_core.py
lines 157-164); the wall-clock `crawl_date` and the derived filename
are not modelled. -/
structure Metadata where
  title : String
  domain : String
  total_pages : Nat
  start_url : String
  pattern : String
deriving DecidableEq, Repr

/-- The JSON document written at the end of a crawl
(gpt_crawler_core.py lines 155-166). -/
structure Artifact where
  metadata : Metadata
  pages : List PageRecord
deriving DecidableEq, Repr

/-- The loop state at the start of a run: everything cleared, the
frontier holding exactly the seed (gpt_crawler_core.py lines 108-131). -/
def initState (start_url : String) : CrawlState :=
  ⟨[], [], [start_url], [], [start_url]⟩

/-- The `try` block of `GPTCrawler.crawl` (gpt_crawler_core.py lines
113-169): the title-probe fetch of the seed, then the loop, then the
directory creation and file write (abstracted by `writeOk`). An
`Except.error` is an exception escaping the block to the handler at
line 171, paired with the `self` state at that moment. -/
def crawl_try (world : World) (writeOk : Bool) (pick : Nat → Nat) (fuel : Nat)
    (start_url url_pattern selector : String) ( remove_selectors : List String)
    (max_pages : Nat) : Except (String × CrawlState) (CrawlState × Artifact) :=
  match world start_url with
  | none => .error ("goto failed", ⟨[], [], [], [], []⟩)
  | some probe =>
    let st := crawlLoop world url_pattern selector remove_selectors max_pages pick fuel
      (initState start_url)
    if writeOk then
      .ok (st, ⟨⟨probe.title, netloc start_url, st.results.length, start_url, url_pattern⟩,
        st.results⟩)
    else .error ("write failed", st)

/-- The observable outcome of one call to `GPTCrawler.crawl`:
`fetchCalls` are the `page.goto` targets in order (title probe first),
`artifact` is the written file (`none` when nothing was written), and
`loggedErrors` the crawl-level error log lines. The function always
returns (the handler at gpt_crawler_core.py line 171 catches every
exception), so there is no field for an exception reaching the caller. -/
structure CrawlOutcome where
  fetchCalls : List String
  crawlCalls : List String
  visited : List String
  results : List PageRecord
  enqueued : List String
  artifact : Option Artifact
  loggedErrors : List String
deriving DecidableEq, Repr

/-- `GPTCrawler.crawl` (gpt_crawler_core.py lines 98-175): the `try`
block wrapped in the `except` handler that logs any escaping exception
and returns normally. -/
def crawl (world : World) (writeOk : Bool) (pick : Nat → Nat) (fuel : Nat)
    (start_url url_pattern selector : String) ( remove_selectors : List String)
    (max_pages : Nat) : CrawlOutcome :=
  match crawl_try world writeOk pick fuel start_url url_pattern selector
      remove_selectors max_pages with
  | .ok (st, art) =>
    ⟨start_url :: st.crawlCalls, st.crawlCalls, st.visited, st.results, st.enqueued,
      some art, []⟩
  | .error (e, st) =>
    ⟨start_url :: st.crawlCalls, st.crawlCalls, st.visited, st.results, st.enqueued,
      none, ["Crawling error: " ++ e]⟩

/-- A concrete site used to exercise the engine: the seed links to one
same-host page and one foreign-host page. -/
def worldDemo : World := fun u =>
  if u = "https://a.com/" then
    some ⟨"Seed", ⟨"seed body", fun _ => [], none⟩, ["https://a.com/b", "https://b.com/x"],
      false⟩
  else if u = "https://a.com/b" then some ⟨"B", ⟨"b body", fun _ => [], none⟩, [], false⟩
  else none

/-- A concrete site whose seed links to the same page twice, once with
and once without a URL fragment. -/
def worldFragments : World := fun u =>
  if u = "https://a.com/" then
    some ⟨"Seed", ⟨"", fun _ => [], none⟩, ["https://a.com/p", "https://a.com/p#f"], false⟩
  else if u = "https://a.com/p" then some ⟨"P", ⟨"", fun _ => [], none⟩, [], false⟩
  else if u = "https://a.com/p#f" then some ⟨"PF", ⟨"", fun _ => [], none⟩, [], false⟩
  else none

/-- A concrete site whose seed page is fetched and recorded, after
which the link-extraction script raises (a per-page error occurring
after the append at gpt_crawler_core.py line 71). -/
def worldPostErr : World := fun u =>
  if u = "https://a.com/" then
    some ⟨"Seed", ⟨"seed body", fun _ => [], none⟩, ["https://a.com/b"], true⟩
  else none

/-- A healthy page on which no element matches any selector. -/
def pageNoMatch : Page := ⟨"hello  world", fun _ => [], none⟩

/-- A page whose handle raises on use. -/
def pageBroken : Page := ⟨"", fun _ => [], some "boom"⟩

/-! ## Helper lemmas -/

lemma getD_mem {α : Type} (l : List α) (i : Nat) (d : α) (h : i < l.length) :
    l.getD i d ∈ l := by
  simp [List.getD_eq_getElem?_getD, List.getElem?_eq_getElem h]

lemma crawl_page_fst_length (world : World) (url sel : String) (rs : List String) :
    (crawl_page world url sel rs).1.length ≤ 1 := by
  cases h : world url with
  | none => simp [crawl_page, h]
  | some f =>
    simp only [crawl_page, h]
    split <;> simp

lemma crawl_page_snd_netloc (world : World) (url sel : String) (rs : List String) :
    ∀ l ∈ (crawl_page world url sel rs).2, netloc l = netloc url := by
  cases h : world url with
  | none => simp [crawl_page, h]
  | some f =>
    intro l hl
    simp only [crawl_page, h] at hl
    split at hl
    · simp at hl
    · simp only [List.mem_filter] at hl
      exact eq_of_beq hl.2

/-- Every predicate preserved by one loop iteration (under the loop
guard) is an invariant of `crawlLoop`. -/
lemma crawlLoop_inv (world : World) (pat sel : String) (rs : List String)
    (maxp : Nat) (pick : Nat → Nat) (P : CrawlState → Prop)
    (hstep : ∀ i st, i < st.frontier.length → st.visited.length < maxp → P st →
      P (stepState world pat sel rs i st)) :
    ∀ fuel st, P st → P (crawlLoop world pat sel rs maxp pick fuel st) := by
  intro fuel
  induction fuel with
  | zero => intro st h; simpa [crawlLoop] using h
  | succ n ih =>
    intro st h
    rw [crawlLoop]
    split
    · exact h
    · next hg =>
      push_neg at hg
      exact ih _ (hstep _ _ (Nat.mod_lt _ (List.length_pos.mpr hg.1)) hg.2 h)

/-- One iteration keeps the visited count below the cap and the result
count below the visited count. -/
lemma stepState_bound (world : World) (pat sel : String) (rs : List String)
    (maxp : Nat) (i : Nat) (st : CrawlState)
    (hlt : st.visited.length < maxp)
    (h : st.visited.length ≤ maxp ∧ st.results.length ≤ st.visited.length) :
    (stepState world pat sel rs i st).visited.length ≤ maxp ∧
      (stepState world pat sel rs i st).results.length ≤
        (stepState world pat sel rs i st).visited.length := by
  have hc := crawl_page_fst_length world (st.frontier.getD i "") sel rs
  simp only [stepState]
  split
  · exact h
  · split
    · simp only [List.length_append, List.length_singleton]
      omega
    · exact h

/-- One iteration preserves the fact that everything in the frontier
and everything ever enqueued shares one authority string. -/
lemma stepState_netloc (world : World) (pat sel : String) (rs : List String)
    (D : String) (i : Nat) (st : CrawlState) (hi : i < st.frontier.length)
    (h : (∀ u ∈ st.frontier, netloc u = D) ∧ (∀ u ∈ st.enqueued, netloc u = D)) :
    (∀ u ∈ (stepState world pat sel rs i st).frontier, netloc u = D) ∧
      (∀ u ∈ (stepState world pat sel rs i st).enqueued, netloc u = D) := by
  have hurl : netloc (st.frontier.getD i "") = D := h.1 _ (getD_mem _ _ _ hi)
  have hfr : ∀ u ∈ st.frontier.eraseIdx i, netloc u = D :=
    fun u hu => h.1 u (List.mem_of_mem_eraseIdx hu)
  have hadds : ∀ u ∈ (crawl_page world (st.frontier.getD i "") sel rs).2, netloc u = D :=
    fun u hu => (crawl_page_snd_netloc world _ sel rs u hu).trans hurl
  simp only [stepState]
  split
  · exact ⟨hfr, h.2⟩
  · split
    · constructor
      · intro u hu
        rcases List.mem_append.mp hu with hu | hu
        · exact hfr u hu
        · exact hadds u (List.mem_dedup.mp (List.mem_filter.mp hu).1)
      · intro u hu
        rcases List.mem_append.mp hu with hu | hu
        · exact h.2 u hu
        · exact hadds u (List.mem_dedup.mp (List.mem_filter.mp hu).1)
    · exact ⟨hfr, h.2⟩

/-- One iteration preserves the fact that the `crawl_page` call list
equals the visited list and contains no duplicate. -/
lemma stepState_calls (world : World) (pat sel : String) (rs : List String)
    (i : Nat) (st : CrawlState)
    (h : st.crawlCalls = st.visited ∧ st.visited.Nodup) :
    (stepState world pat sel rs i st).crawlCalls =
        (stepState world pat sel rs i st).visited ∧
      (stepState world pat sel rs i st).visited.Nodup := by
  simp only [stepState]
  split
  · exact h
  · next hnv =>
    split
    · refine ⟨by rw [h.1], ?_⟩
      exact (List.nodup_append).mpr
        ⟨h.2, List.nodup_singleton _, List.disjoint_singleton.mpr hnv⟩
    · exact h

/-- The observable fields of a `crawl` outcome are always those of some
loop state: either the cleared state (probe failure) or the state the
loop reaches from `initState`. -/
lemma crawl_outcome_state (world : World) (writeOk : Bool) (pick : Nat → Nat)
    (fuel : Nat) (start_url url_pattern selector : String) (rs : List String)
    (maxp : Nat) :
    ∃ st : CrawlState,
      (st = ⟨[], [], [], [], []⟩ ∨
        st = crawlLoop world url_pattern selector rs maxp pick fuel (initState start_url)) ∧
      (crawl world writeOk pick fuel start_url url_pattern selector rs maxp).visited =
        st.visited ∧
      (crawl world writeOk pick fuel start_url url_pattern selector rs maxp).results =
        st.results ∧
      (crawl world writeOk pick fuel start_url url_pattern selector rs maxp).crawlCalls =
        st.crawlCalls ∧
      (crawl world writeOk pick fuel start_url url_pattern selector rs maxp).enqueued =
        st.enqueued ∧
      (∀ art ∈ (crawl world writeOk pick fuel start_url url_pattern selector rs maxp).artifact,
        art.pages = st.results) := by
  unfold crawl crawl_try
  cases hw : world start_url with
  | none => exact ⟨⟨[], [], [], [], []⟩, Or.inl rfl, by simp⟩
  | some probe =>
    refine ⟨crawlLoop world url_pattern selector rs maxp pick fuel (initState start_url),
      Or.inr rfl, ?_⟩
    cases writeOk <;> simp

/-- Every word produced by the split scanner is non-empty and free of
whitespace, provided the partial word in the accumulator is. -/
lemma wordsAux_good : ∀ (s acc : List Char),
    (∀ c ∈ acc, c.isWhitespace = false) →
    ∀ w ∈ wordsAux s acc, w ≠ [] ∧ ∀ c ∈ w, c.isWhitespace = false := by
  intro s
  induction s with
  | nil =>
    intro acc hacc w hw
    by_cases h : acc = []
    · simp [wordsAux, h] at hw
    · simp only [wordsAux, if_neg h, List.mem_singleton] at hw
      subst hw
      exact ⟨by simpa using h, fun c hc => hacc c (List.mem_reverse.mp hc)⟩
  | cons c cs ih =>
    intro acc hacc w hw
    simp only [wordsAux] at hw
    by_cases hc : c.isWhitespace
    · rw [if_pos hc] at hw
      by_cases h : acc = []
      · rw [if_pos h] at hw
        exact ih [] (by simp) w hw
      · rw [if_neg h] at hw
        rcases List.mem_cons.mp hw with rfl | hw
        · exact ⟨by simpa using h, fun d hd => hacc d (List.mem_reverse.mp hd)⟩
        · exact ih [] (by simp) w hw
    · rw [if_neg hc] at hw
      refine ih (c :: acc) ?_ w hw
      intro d hd
      rcases List.mem_cons.mp hd with rfl | hd
      · simpa using hc
      · exact hacc d hd

/-- Scanning a whitespace-free word just pushes it onto the
accumulator. -/
lemma wordsAux_word : ∀ (w : List Char), (∀ c ∈ w, c.isWhitespace = false) →
    ∀ (rest acc : List Char), wordsAux (w ++ rest) acc = wordsAux rest (w.reverse ++ acc) := by
  intro w
  induction w with
  | nil => intro _ rest acc; simp
  | cons c cs ih =>
    intro hw rest acc
    have hc : c.isWhitespace = false := hw c (by simp)
    simp only [List.cons_append, wordsAux, hc, Bool.false_eq_true, if_false, List.append_eq]
    rw [ih (fun d hd => hw d (by simp [hd])) rest (c :: acc)]
    simp [List.append_assoc]

/-- Splitting a space-joined list of non-empty whitespace-free words
recovers exactly that list. -/
lemma pyWords_joinWords : ∀ (ws : List (List Char)),
    (∀ w ∈ ws, w ≠ [] ∧ ∀ c ∈ w, c.isWhitespace = false) →
    pyWords (joinWords ws) = ws := by
  intro ws
  induction ws with
  | nil => intro _; rfl
  | cons w ws ih =>
    intro h
    obtain ⟨hne, hwf⟩ := h w (by simp)
    cases ws with
    | nil =>
      show wordsAux (joinWords [w]) [] = [w]
      have : joinWords [w] = w ++ [] := by simp [joinWords]
      rw [this, wordsAux_word w hwf [] []]
      simp only [wordsAux, List.append_nil]
      rw [if_neg (by simpa using hne)]
      simp
    | cons x ws' =>
      show wordsAux (joinWords (w :: x :: ws')) [] = w :: x :: ws'
      have : joinWords (w :: x :: ws') = w ++ ' ' :: joinWords (x :: ws') := rfl
      rw [this, wordsAux_word w hwf _ []]
      simp only [wordsAux]
      rw [if_pos (by decide)]
      rw [if_neg (by simpa using hne)]
      simp only [List.append_nil, List.reverse_reverse]
      rw [show wordsAux (joinWords (x :: ws')) [] = pyWords (joinWords (x :: ws')) from rfl]
      rw [ih (fun v hv => h v (by simp [hv]))]

/-- A loop starting from an empty frontier does nothing. -/
lemma crawlLoop_frontier_nil (world : World) (pat sel : String) (rs : List String)
    (maxp : Nat) (pick : Nat → Nat) :
    ∀ (fuel : Nat) (st : CrawlState), st.frontier = [] →
      crawlLoop world pat sel rs maxp pick fuel st = st := by
  intro fuel
  induction fuel with
  | zero => intro st _; rfl
  | succ n ih =>
    intro st h
    simp only [crawlLoop]
    rw [if_pos (Or.inl h)]

/-- When the pattern rejects the seed, the loop pops the seed, drops it
and terminates with nothing visited or recorded. -/
lemma crawlLoop_reject (world : World) (pat sel : String) (rs : List String)
    (maxp : Nat) (pick : Nat → Nat) (start_url : String)
    (hm : matches_pattern start_url pat = false) (fuel : Nat) :
    (crawlLoop world pat sel rs maxp pick fuel (initState start_url)).visited = [] ∧
    (crawlLoop world pat sel rs maxp pick fuel (initState start_url)).results = [] ∧
    (crawlLoop world pat sel rs maxp pick fuel (initState start_url)).crawlCalls = [] ∧
    (crawlLoop world pat sel rs maxp pick fuel (initState start_url)).enqueued =
      [start_url] := by
  cases fuel with
  | zero => simp [crawlLoop, initState]
  | succ n =>
    simp only [crawlLoop]
    by_cases hg : (initState start_url).frontier = [] ∨
      maxp ≤ (initState start_url).visited.length
    · rw [if_pos hg]
      simp [initState]
    · rw [if_neg hg]
      have hstep : stepState world pat sel rs (pick n % (initState start_url).frontier.length)
          (initState start_url) = ⟨[], [], [], [], [start_url]⟩ := by
        simp [stepState, initState, hm, Nat.mod_one]
      rw [hstep]
      rw [crawlLoop_frontier_nil world pat sel rs maxp pick n _ rfl]
      exact ⟨rfl, rfl, rfl, rfl⟩

/-! ## Claims -/

/-- C1, counterexample: the claim that each distinct *normalized* URL
(fragment stripped) is fetched at most once is false: on a site whose
seed links to the same page with and without a fragment, `crawl_page`
is called on both URLs, which are equal after normalization but are
distinct strings, because the code deduplicates on exact string
equality and never strips fragments. -/
theorem c1_cex :
    "https://a.com/p" ∈
      (crawl worldFragments true (fun _ => 0) 10 "https://a.com/" "" "" [] 10).crawlCalls ∧
    "https://a.com/p#f" ∈
      (crawl worldFragments true (fun _ => 0) 10 "https://a.com/" "" "" [] 10).crawlCalls ∧
    normalizeUrl "https://a.com/p" = normalizeUrl "https://a.com/p#f" ∧
    "https://a.com/p" ≠ "https://a.com/p#f" := by decide

/-- C1, amended: each distinct URL *string* is fetched at most once in
a run — no two calls to `crawl_page` receive equal URL strings,
because a URL enters the visited set exactly when it is chosen for
visiting and visited URLs are skipped on re-discovery. (The code has
no URL normalization; equality is exact string equality.) -/
theorem c1_amended_nodup (world : World) (writeOk : Bool) (pick : Nat → Nat)
    (fuel : Nat) (start_url url_pattern selector : String) (rs : List String)
    (maxp : Nat) :
    (crawl world writeOk pick fuel start_url url_pattern selector rs
      maxp).crawlCalls.Nodup := by
  obtain ⟨st, hst, -, -, hc, -, -⟩ :=
    crawl_outcome_state world writeOk pick fuel start_url url_pattern selector rs maxp
  have hP : st.crawlCalls = st.visited ∧ st.visited.Nodup := by
    rcases hst with rfl | rfl
    · simp
    · exact crawlLoop_inv world url_pattern selector rs maxp pick _
        (fun i s hi hlt h => stepState_calls world url_pattern selector rs i s h)
        fuel (initState start_url) (by simp [initState])
  rw [hc, hP.1]
  exact hP.2

/-- C2: for every run with `max_pages = N` (`N ≥ 1`), the visited set
never exceeds `N` elements and the results list — hence the written
artifact's pages array — holds at most `N` records: each loop
iteration adds at most one visited URL and at most one record. -/
theorem c2_bound (world : World) (writeOk : Bool) (pick : Nat → Nat)
    (fuel : Nat) (start_url url_pattern selector : String) (rs : List String)
    (N : Nat) (hN : 1 ≤ N) :
    (crawl world writeOk pick fuel start_url url_pattern selector rs N).visited.length ≤ N ∧
    (crawl world writeOk pick fuel start_url url_pattern selector rs N).results.length ≤ N ∧
    ∀ art ∈ (crawl world writeOk pick fuel start_url url_pattern selector rs N).artifact,
      art.pages.length ≤ N := by
  obtain ⟨st, hst, hv, hr, -, -, hart⟩ :=
    crawl_outcome_state world writeOk pick fuel start_url url_pattern selector rs N
  have hP : st.visited.length ≤ N ∧ st.results.length ≤ st.visited.length := by
    rcases hst with rfl | rfl
    · simp
    · exact crawlLoop_inv world url_pattern selector rs N pick _
        (fun i s hi hlt h => stepState_bound world url_pattern selector rs N i s hlt h)
        fuel (initState start_url) (by simp [initState])
  refine ⟨?_, ?_, ?_⟩
  · rw [hv]; exact hP.1
  · rw [hr]; exact hP.2.trans hP.1
  · intro art ha
    rw [hart art ha]
    exact hP.2.trans hP.1

/-- Witness for claim C2 at a concrete world with `N = 2`. -/
theorem c2_bound_witness :
    (crawl worldDemo true (fun _ => 0) 5 "https://a.com/" "" "" [] 2).visited.length ≤ 2 ∧
    (crawl worldDemo true (fun _ => 0) 5 "https://a.com/" "" "" [] 2).results.length ≤ 2 ∧
    ∀ art ∈ (crawl worldDemo true (fun _ => 0) 5 "https://a.com/" "" "" [] 2).artifact,
      art.pages.length ≤ 2 :=
  c2_bound worldDemo true (fun _ => 0) 5 "https://a.com/" "" "" [] 2 (by decide)

/-- C3: every URL ever placed in the frontier (other than the seed
itself) has a host component equal to the seed URL's host, under
case-sensitive exact comparison: links are kept only when their
authority string equals that of the page they were found on, and by
induction that authority is the seed's. -/
theorem c3_same_host (world : World) (writeOk : Bool) (pick : Nat → Nat)
    (fuel : Nat) (start_url url_pattern selector : String) (rs : List String)
    (maxp : Nat) (u : String)
    (hu : u ∈ (crawl world writeOk pick fuel start_url url_pattern selector rs maxp).enqueued)
    (hne : u ≠ start_url) : hostOf u = hostOf start_url := by
  obtain ⟨st, hst, -, -, -, he, -⟩ :=
    crawl_outcome_state world writeOk pick fuel start_url url_pattern selector rs maxp
  have hP : (∀ v ∈ st.frontier, netloc v = netloc start_url) ∧
      (∀ v ∈ st.enqueued, netloc v = netloc start_url) := by
    rcases hst with rfl | rfl
    · simp
    · exact crawlLoop_inv world url_pattern selector rs maxp pick _
        (fun i s hi hlt h => stepState_netloc world url_pattern selector rs _ i s hi h)
        fuel (initState start_url) (by simp [initState])
  rw [he] at hu
  unfold hostOf
  rw [hP.2 u hu]

/-- Witness for claim C3: the discovered same-host link shares the
seed's host. -/
theorem c3_same_host_witness : hostOf "https://a.com/b" = hostOf "https://a.com/" :=
  c3_same_host worldDemo true (fun _ => 0) 5 "https://a.com/" "" "" [] 10 "https://a.com/b"
    (by decide) (by decide)

/-- C4: `matches_pattern url pattern` is true when `pattern` is empty,
and otherwise is true exactly when `url` starts with the literal
string `pattern` (a plain prefix test); in particular the three
example evaluations of the spec hold. -/
theorem c4_matches (url pattern : String) :
    (pattern = "" → matches_pattern url pattern = true) ∧
    (pattern ≠ "" → (matches_pattern url pattern = true ↔ pattern.data <+: url.data)) ∧
    matches_pattern url "" = true ∧
    matches_pattern "https://a.com/x" "https://a.com/docs" = false ∧
    matches_pattern "https://a.com/docs/x" "https://a.com/docs" = true := by
  refine ⟨fun h => by simp [matches_pattern, h], fun h => ?_,
    by simp [matches_pattern], by decide, by decide⟩
  simp [matches_pattern, h]

/-- Witness for claim C4 at concrete URLs and patterns. -/
theorem c4_matches_witness :
    matches_pattern "https://a.com/docs/x" "" = true ∧
    (matches_pattern "https://a.com/docs/x" "https://a.com/docs" = true ↔
      "https://a.com/docs".data <+: "https://a.com/docs/x".data) :=
  ⟨(c4_matches "https://a.com/docs/x" "").1 rfl,
   (c4_matches "https://a.com/docs/x" "https://a.com/docs").2.1 (by decide)⟩

/-- C5, counterexample: the claim that *any* per-page error records no
`PageRecord` for that URL is false: when the link-extraction script
raises after `results.append` (gpt_crawler_core.py line 78 after line
71), the exception is caught at line 94 and `[]` returned, but the
already-appended record remains — on a concrete run whose only page
fails that way, the results still hold that page's record (and no
links were enqueued). -/
theorem c5_cex :
    (crawl worldPostErr true (fun _ => 0) 5 "https://a.com/" "" "" [] 10).results =
      [⟨"https://a.com/", "Seed", "seed body"⟩] ∧
    (crawl worldPostErr true (fun _ => 0) 5 "https://a.com/" "" "" [] 10).enqueued =
      ["https://a.com/"] := by decide

/-- C5, amended: an error before the append (navigation failure or
timeout at `goto`, or a failing `title()`) records no `PageRecord` for
that URL; a per-page error after the append (during link extraction or
page close) leaves the already-appended record in the results and
enqueues no links. In both cases the URL stays in the visited set and
consumes the `max_pages` budget, the error is absorbed at the
iteration boundary, and the loop goes on with the remaining frontier:
the run after the failing iteration equals the run from the
correspondingly updated state. -/
theorem c5_amended_page_errors (world : World) (url_pattern selector : String)
    (rs : List String) (maxp : Nat) (pick : Nat → Nat) (fuel : Nat)
    (st : CrawlState) (url : String)
    (hne : st.frontier ≠ []) (hlt : st.visited.length < maxp)
    (hurl : url = st.frontier.getD (pick fuel % st.frontier.length) "")
    (hnv : url ∉ st.visited) (hpat : matches_pattern url url_pattern = true) :
    (world url = none →
      crawlLoop world url_pattern selector rs maxp pick (fuel + 1) st =
        crawlLoop world url_pattern selector rs maxp pick fuel
          ⟨st.visited ++ [url], st.results,
            st.frontier.eraseIdx (pick fuel % st.frontier.length),
            st.crawlCalls ++ [url], st.enqueued⟩) ∧
    (∀ f : FetchResult, world url = some f → f.linksErr = true →
      crawlLoop world url_pattern selector rs maxp pick (fuel + 1) st =
        crawlLoop world url_pattern selector rs maxp pick fuel
          ⟨st.visited ++ [url],
            st.results ++ [⟨url, f.title, process_page f.page selector rs⟩],
            st.frontier.eraseIdx (pick fuel % st.frontier.length),
            st.crawlCalls ++ [url], st.enqueued⟩) := by
  subst hurl
  constructor
  · intro hfail
    have hcp : crawl_page world (st.frontier.getD (pick fuel % st.frontier.length) "")
        selector rs = ([], []) := by
      unfold crawl_page
      rw [hfail]
    simp only [crawlLoop]
    rw [if_neg (by push_neg; exact ⟨hne, hlt⟩)]
    congr 1
    simp only [stepState]
    rw [if_neg hnv, if_pos hpat, hcp]
    simp
  · intro f hf hl
    have hcp : crawl_page world (st.frontier.getD (pick fuel % st.frontier.length) "")
        selector rs =
        ([⟨st.frontier.getD (pick fuel % st.frontier.length) "", f.title,
          process_page f.page selector rs⟩], []) := by
      unfold crawl_page
      rw [hf]
      simp [hl]
    simp only [crawlLoop]
    rw [if_neg (by push_neg; exact ⟨hne, hlt⟩)]
    congr 1
    simp only [stepState]
    rw [if_neg hnv, if_pos hpat, hcp]
    simp

/-- Witness for claim C5's amended statement: a pre-append failure on
one singleton frontier and a post-append failure on another. -/
theorem c5_amended_page_errors_witness :
    (crawlLoop (fun _ => none) "" "" [] 10 (fun _ => 0) 1
        ⟨[], [], ["https://x.com/"], [], ["https://x.com/"]⟩ =
      crawlLoop (fun _ => none) "" "" [] 10 (fun _ => 0) 0
        ⟨["https://x.com/"], [], [], ["https://x.com/"], ["https://x.com/"]⟩) ∧
    (crawlLoop worldPostErr "" "" [] 10 (fun _ => 0) 1
        ⟨[], [], ["https://a.com/"], [], ["https://a.com/"]⟩ =
      crawlLoop worldPostErr "" "" [] 10 (fun _ => 0) 0
        ⟨["https://a.com/"], [⟨"https://a.com/", "Seed", "seed body"⟩], [],
          ["https://a.com/"], ["https://a.com/"]⟩) :=
  ⟨(c5_amended_page_errors (fun _ => none) "" "" [] 10 (fun _ => 0) 0
      ⟨[], [], ["https://x.com/"], [], ["https://x.com/"]⟩ "https://x.com/"
      (by decide) (by decide) rfl (by decide) rfl).1 rfl,
   (c5_amended_page_errors worldPostErr "" "" [] 10 (fun _ => 0) 0
      ⟨[], [], ["https://a.com/"], [], ["https://a.com/"]⟩ "https://a.com/"
      (by decide) (by decide) rfl (by decide) rfl).2
      ⟨"Seed", ⟨"seed body", fun _ => [], none⟩, ["https://a.com/b"], true⟩ rfl rfl⟩

/-- C6: `process_page` never raises (it is a total function by
construction): a non-empty selector matching no elements yields the
empty string, and a failing page handle yields the diagnostic string
stored in place of content. -/
theorem c6_process_page_safe (page : Page) (selector : String) (rs : List String)
    (e : String) :
    (page.err = none → selector ≠ "" → page.select selector = [] →
      process_page page selector rs = "") ∧
    (page.err = some e → process_page page selector rs = "Error processing page: " ++ e) := by
  constructor
  · intro h1 h2 h3
    simp [process_page, h1, h2, h3, String.intercalate, normalizeWsStr, pyWords, wordsAux,
      joinWords]
  · intro h1
    simp [process_page, h1]

/-- Witness for claim C6 on a no-match page and a broken page. -/
theorem c6_process_page_safe_witness :
    process_page pageNoMatch "main" [] = "" ∧
    process_page pageBroken "main" [] = "Error processing page: boom" :=
  ⟨(c6_process_page_safe pageNoMatch "main" [] "boom").1 rfl (by decide) rfl,
   (c6_process_page_safe pageBroken "main" [] "boom").2 rfl⟩

/-- C7: the `remove_selectors` argument has no effect on the content
`process_page` extracts — two invocations differing only in it return
identical strings, because no element removal is ever performed. -/
theorem c7_noninterference (page : Page) (selector : String) (rs1 rs2 : List String) :
    process_page page selector rs1 = process_page page selector rs2 := rfl

/-- C8, counterexample: the claim that a directory-creation/write
failure propagates to the run level rather than being caught and
logged inside `crawl` is false: on a concrete run whose write fails,
`crawl` returns normally with the error caught and logged in its own
handler, no artifact, and the accumulated (unwritten) results still in
memory. -/
theorem c8_cex :
    (crawl worldDemo false (fun _ => 0) 5 "https://a.com/" "" "" [] 10).loggedErrors =
      ["Crawling error: write failed"] ∧
    (crawl worldDemo false (fun _ => 0) 5 "https://a.com/" "" "" [] 10).artifact = none ∧
    (crawl worldDemo false (fun _ => 0) 5 "https://a.com/" "" "" [] 10).results ≠ [] := by
  decide

/-- C8, amended: if creating the output directory or writing the final
artifact fails, the exception escapes the loop but is caught by
`crawl`'s own top-level handler, which logs it and returns normally:
no artifact is written, no exception reaches the caller, and there is
no distinguished Failed state (the accumulated results stay only in
memory). -/
theorem c8_amended_write_failure (world : World) (pick : Nat → Nat) (fuel : Nat)
    (start_url url_pattern selector : String) (rs : List String) (maxp : Nat)
    (pr : FetchResult) (hw : world start_url = some pr) :
    (crawl world false pick fuel start_url url_pattern selector rs maxp).artifact = none ∧
    (crawl world false pick fuel start_url url_pattern selector rs maxp).loggedErrors =
      ["Crawling error: write failed"] ∧
    (crawl world false pick fuel start_url url_pattern selector rs maxp).results =
      (crawlLoop world url_pattern selector rs maxp pick fuel (initState start_url)).results := by
  simp [crawl, crawl_try, hw]

/-- Witness for claim C8's amended statement at a concrete world. -/
theorem c8_amended_write_failure_witness :
    (crawl worldDemo false (fun _ => 0) 5 "https://a.com/" "" "" [] 10).artifact = none ∧
    (crawl worldDemo false (fun _ => 0) 5 "https://a.com/" "" "" [] 10).loggedErrors =
      ["Crawling error: write failed"] ∧
    (crawl worldDemo false (fun _ => 0) 5 "https://a.com/" "" "" [] 10).results =
      (crawlLoop worldDemo "" "" [] 10 (fun _ => 0) 5 (initState "https://a.com/")).results :=
  c8_amended_write_failure worldDemo (fun _ => 0) 5 "https://a.com/" "" "" [] 10
    ⟨"Seed", ⟨"seed body", fun _ => [], none⟩, ["https://a.com/b", "https://b.com/x"], false⟩
    rfl

/-- C9: the whitespace normalization `' '.join(s.split())` applied to
extracted content is idempotent — applying it twice yields the same
string as applying it once. -/
theorem c9_idempotent (s : String) :
    normalizeWsStr (normalizeWsStr s) = normalizeWsStr s := by
  unfold normalizeWsStr
  congr 1
  have hd : (String.mk (joinWords (pyWords s.data))).data = joinWords (pyWords s.data) := rfl
  rw [hd]
  rw [pyWords_joinWords (pyWords s.data) (wordsAux_good s.data [] (by simp))]

/-- C10: if the pattern is non-empty and the seed does not start with
it, the crawl visits nothing and records nothing (the seed is popped
and rejected, emptying the frontier), performs only the title-probe
fetch of the seed, and still writes an artifact with an empty pages
array and `total_pages = 0`. -/
theorem c10_seed_rejected (world : World) (pick : Nat → Nat) (fuel : Nat)
    (start_url url_pattern selector : String) (rs : List String) (maxp : Nat)
    (pr : FetchResult) (hw : world start_url = some pr)
    (hpat : url_pattern ≠ "") (hpre : ¬ url_pattern.data <+: start_url.data) :
    (crawl world true pick fuel start_url url_pattern selector rs maxp).visited = [] ∧
    (crawl world true pick fuel start_url url_pattern selector rs maxp).results = [] ∧
    (crawl world true pick fuel start_url url_pattern selector rs maxp).crawlCalls = [] ∧
    (crawl world true pick fuel start_url url_pattern selector rs maxp).fetchCalls =
      [start_url] ∧
    (crawl world true pick fuel start_url url_pattern selector rs maxp).artifact =
      some ⟨⟨pr.title, netloc start_url, 0, start_url, url_pattern⟩, []⟩ := by
  have hm : matches_pattern start_url url_pattern = false := by
    simp only [matches_pattern, if_neg hpat]
    exact Bool.eq_false_iff.mpr (fun hb => hpre (List.isPrefixOf_iff_prefix.mp hb))
  obtain ⟨h1, h2, h3, h4⟩ :=
    crawlLoop_reject world url_pattern selector rs maxp pick start_url hm fuel
  simp [crawl, crawl_try, hw, h1, h2, h3]

/-- Witness for claim C10: seed `https://a.com/` against pattern
`https://b.com/`. -/
theorem c10_seed_rejected_witness :
    (crawl worldDemo true (fun _ => 0) 5 "https://a.com/" "https://b.com/" "" [] 10).visited
      = [] ∧
    (crawl worldDemo true (fun _ => 0) 5 "https://a.com/" "https://b.com/" "" [] 10).results
      = [] ∧
    (crawl worldDemo true (fun _ => 0) 5 "https://a.com/" "https://b.com/" "" [] 10).crawlCalls
      = [] ∧
    (crawl worldDemo true (fun _ => 0) 5 "https://a.com/" "https://b.com/" "" [] 10).fetchCalls
      = ["https://a.com/"] ∧
    (crawl worldDemo true (fun _ => 0) 5 "https://a.com/" "https://b.com/" "" [] 10).artifact
      = some ⟨⟨"Seed", netloc "https://a.com/", 0, "https://a.com/", "https://b.com/"⟩, []⟩ :=
  c10_seed_rejected worldDemo (fun _ => 0) 5 "https://a.com/" "https://b.com/" "" [] 10
    ⟨"Seed", ⟨"seed body", fun _ => [], none⟩, ["https://a.com/b", "https://b.com/x"], false⟩
    rfl (by decide) (by decide)

end GPTCrawlerModel
